import Mathlib

/-!
Shallow embedding of the batching, deduplication and response-correlation
engine of `msticpy/context/vtlookupv3/vtlookup.py` (class `VTLookup`).
-/

/-- A JSON scalar value, as produced by decoding a VirusTotal response body. -/
inductive JLeaf where
  | jstr (s : String)
  | jnum (n : Int)
  | jbool (b : Bool)
  | jnull
  deriving Repr, DecidableEq

/-- A field value of a decoded response object: either a scalar, or a list of
flat objects (the shape of the multi-valued "resolutions" and "detected_urls"
fields).  This is the JSON fragment the engine's parsing code inspects. -/
inductive JField where
  | leaf (v : JLeaf)
  | list (items : List (List (String × JLeaf)))
  deriving Repr, DecidableEq

/-- A decoded JSON object: an association list of fields (Python dict). -/
abbrev JObj := List (String × JField)

/-- Wrap a string as a JSON field value (most row cells hold strings). -/
def jstrF (s : String) : JField :=
  JField.leaf (JLeaf.jstr s)

/-- Python `d.get(key, None)` / `d[key]` on a decoded object (dict keys are
unique, so the first match is the value). -/
def getField (d : JObj) (k : String) : Option JField :=
  (d.find? (fun p => p.1 == k)).map Prod.snd

/-- Python `key in d` on a decoded object. -/
def hasField (d : JObj) (k : String) : Bool :=
  (d.find? (fun p => p.1 == k)).isSome

/-- Lookup on a flat (scalar-valued) object, as used for the entries of the
"resolutions" and "detected_urls" lists. -/
def getLeaf (d : List (String × JLeaf)) (k : String) : Option JLeaf :=
  (d.find? (fun p => p.1 == k)).map Prod.snd

/-- `[item[key] for item in items if key in item]` restricted to string
values, as used for hostnames, addresses and urls (non-string values would
make Python's `", ".join` raise, so only the string case is meaningful). -/
def strValues (key : String) (items : List (List (String × JLeaf))) :
    List String :=
  items.filterMap fun it =>
    match getLeaf it key with
    | some (JLeaf.jstr s) => some s
    | _ => none

/-- `sum(item[key] for item in items if key in item)` for integer values
(the per-entry "positives" counts). -/
def intSum (key : String) (items : List (List (String × JLeaf))) : Int :=
  (items.filterMap fun it =>
    match getLeaf it key with
    | some (JLeaf.jnum n) => some n
    | _ => none).sum

/-- The items of a list-valued field; Python would raise on a non-list value
(none of the parsed fields are scalar where a list is iterated). -/
def listItems : Option JField → List (List (String × JLeaf))
  | some (JField.list items) => items
  | _ => []

/-- `VTParams` (vtlookup.py lines 45-53): the per-API-type descriptor.  The
`headers` component only feeds the HTTP transport, which is external to the
engine, so it is omitted here. -/
structure VTParams where
  api_type : String
  batch_size : Nat
  batch_delimiter : String
  http_verb : String
  api_var_name : String
  deriving Repr, DecidableEq

/-- One row of the `results` DataFrame (columns `_RESULT_COLUMNS`, lines
111-130).  A fresh pandas row holds NaN in every column; `none` plays that
role.  `SourceIndex` values are modelled as integers (the source uses any
hashable frame index). -/
structure ResultRow where
  observable : Option JField := none
  iocType : Option String := none
  status : Option String := none
  responseCode : Option JField := none
  rawResponse : Option JObj := none
  resource : Option JField := none
  sourceIndex : Option Int := none
  verboseMsg : Option JField := none
  scanId : Option JField := none
  permalink : Option JField := none
  positives : Option JField := none
  md5 : Option JField := none
  sha1 : Option JField := none
  sha256 : Option JField := none
  resolvedDomains : Option String := none
  resolvedIPs : Option String := none
  detectedUrls : Option String := none
  deriving Repr, DecidableEq

/-- `_SUPPORTED_INPUT_TYPES` (lines 82-89).  Note the source's literal
"sh256_hash" spelling. -/
def SUPPORTED_INPUT_TYPES : List String :=
  ["ipv4", "dns", "url", "md5_hash", "sha1_hash", "sh256_hash"]

/-- `_VT_TYPE_MAP` (lines 92-99). -/
def VT_TYPE_MAP : List (String × String) :=
  [("ipv4", "ip-address"), ("dns", "domain"), ("url", "url"),
   ("md5_hash", "file"), ("sha1_hash", "file"), ("sh256_hash", "file")]

/-- `_VT_API_TYPES` (lines 104-109). -/
def VT_API_TYPES : List (String × VTParams) :=
  [("url", ⟨"url", 1, "\n", "get", "resource"⟩),
   ("file", ⟨"file", 25, ",", "get", "resource"⟩),
   ("ip-address", ⟨"ip-address", 1, "", "get", "ip"⟩),
   ("domain", ⟨"domain", 1, "", "get", "domain"⟩)]

/-- String-keyed dict lookup (Python `d[k]` / `k in d`). -/
def slookup {α : Type} (m : List (String × α)) (k : String) : Option α :=
  (m.find? (fun p => p.1 == k)).map Prod.snd

/-- Python dict assignment `m[k] = v`: overwrite if the key exists, else
append a new key (insertion order is preserved, as in Python dicts). -/
def dinsert {α : Type} (m : List (String × α)) (k : String) (v : α) :
    List (String × α) :=
  if (m.find? (fun p => p.1 == k)).isSome then
    m.map (fun p => if p.1 == k then (k, v) else p)
  else
    m ++ [(k, v)]

/-- `_parse_single_result` (lines 574-655): extract type-specific fields of
one decoded response element into a fresh row.  The branch lists are the
source's literals; note that the hash branch tests "sha256_hash", a name that
does not occur in `SUPPORTED_INPUT_TYPES` (which has "sh256_hash"). -/
def parse_single_result (results_dict : JObj) (ioc_type : String) : ResultRow :=
  let r0 : ResultRow := {}
  let r1 :=
    if ioc_type ∈ ["url", "md5_hash", "sha1_hash", "sha256_hash"] then
      let r : ResultRow := { r0 with
        responseCode := getField results_dict "response_code"
        verboseMsg := getField results_dict "verbose_msg"
        scanId := getField results_dict "scan_id"
        resource := getField results_dict "resource"
        permalink := getField results_dict "permalink"
        positives := getField results_dict "positives" }
      if ioc_type ∈ ["md5_hash", "sha1_hash", "sha256_hash"] then
        { r with
          md5 := getField results_dict "md5"
          sha1 := getField results_dict "sha1"
          sha256 := getField results_dict "sha256" }
      else r
    else r0
  if ioc_type ∈ ["ipv4", "dns"] then
    let r2 : ResultRow := { r1 with
      responseCode := getField results_dict "response_code"
      verboseMsg := getField results_dict "verbose_msg" }
    let r3 :=
      if ioc_type == "ipv4" && hasField results_dict "resolutions" then
        { r2 with resolvedDomains := some (String.intercalate ", "
            (strValues "hostname" (listItems (getField results_dict "resolutions")))) }
      else if ioc_type == "dns" && hasField results_dict "resolutions" then
        { r2 with resolvedIPs := some (String.intercalate ", "
            (strValues "ip_address" (listItems (getField results_dict "resolutions")))) }
      else r2
    if hasField results_dict "detected_urls" then
      { r3 with
        detectedUrls := some (String.intercalate ", "
          (strValues "url" (listItems (getField results_dict "detected_urls"))))
        positives := some (JField.leaf (JLeaf.jnum
          (intSum "positives" (listItems (getField results_dict "detected_urls"))))) }
    else r3
  else r1

/-- `_add_invalid_input_result` (lines 798-830): append one row with only
Observable, IoCType, Status and SourceIndex filled in (every other column of
the fresh `pd.Series` stays NaN — in particular ResponseCode and
RawResponse). -/
def add_invalid_input_result (results : List ResultRow) (observable : String)
    (ioc_type : String) (status : String) (source_idx : Option Int) :
    List ResultRow :=
  results ++ [{ observable := some (jstrF observable), iocType := some ioc_type,
                status := some status, sourceIndex := source_idx }]

/-- The duplicate-check outcome: the `DuplicateStatus` named tuple, with the
matched rows' original SourceIndex values kept as a list (the source formats
this list into the status string "Duplicates of {original_indices}"). -/
structure DupStatus where
  is_dup : Bool
  orig_indices : List (Option Int)
  deriving Repr, DecidableEq

/-- `_check_duplicate_submission` (lines 728-796): look for the literal
observable in the Observable column; for hash types fall back to the MD5,
SHA1 and SHA256 columns (overwriting Observable in the matched copies); on
any match append clones with SourceIndex set to the new row's index and
Status "Duplicate".  All comparisons are pandas `==` on the literal value. -/
def check_duplicate_submission (results : List ResultRow) (observable : String)
    (ioc_type : String) (source_index : Int) : List ResultRow × DupStatus :=
  let dup0 := results.filter (fun r => r.observable == some (jstrF observable))
  let dup :=
    if dup0.length == 0 && ioc_type ∈ ["md5_hash", "sha1_hash", "sh256_hash"] then
      (results.filter (fun r =>
        r.md5 == some (jstrF observable) || r.sha1 == some (jstrF observable)
          || r.sha256 == some (jstrF observable))).map
        (fun r => { r with observable := some (jstrF observable) })
    else dup0
  if 0 < dup.length then
    let original_indices := dup.map (fun r => r.sourceIndex)
    let clones := dup.map (fun r =>
      { r with sourceIndex := some source_index, status := some "Duplicate" })
    (results ++ clones, ⟨true, original_indices⟩)
  else
    (results, ⟨false, []⟩)

/-- A gateway response body after the `json.loads` decode attempt of
`_parse_vt_results` (lines 500-503; `json.loads` itself is the external
stdlib decoder).  `ostr` is a string body the decode left as a string
(undecodable, or decoded to a string again); `olist` a decoded JSON array
(the engine passes each element to the Mapping-typed single parser, so
elements are objects here); `odict` a decoded object; `oother` any other
decoded value (number, boolean, null); `onone` Python `None` (the transport
returns None on a hard failure with an undecodable body). -/
inductive PyObj where
  | ostr (s : String)
  | olist (xs : List JObj)
  | odict (d : JObj)
  | oother
  | onone
  deriving Repr, DecidableEq

/-- The shape dispatch of `_parse_vt_results` (lines 505-523): a list is
accepted only with a batch descriptor whose batch_size exceeds 1; a dict is
a single result; every other shape leaves nothing to parse. -/
def results_to_parse_of (vt_results : PyObj) (vt_param : Option VTParams) :
    List JObj :=
  match vt_results with
  | PyObj.olist xs =>
      match vt_param with
      | some p => if 1 < p.batch_size then xs else []
      | none => []
  | PyObj.odict d => [d]
  | _ => []

/-- The reconstruction of the submitted literals (lines 525-528): split the
submission string on the delimiter when a batch descriptor with a non-empty
delimiter is present (an empty delimiter is falsy in Python), else the whole
string is the single literal. -/
def submitted_observables (observable : String) (vt_param : Option VTParams) :
    List String :=
  match vt_param with
  | some p =>
      if p.batch_delimiter ≠ "" then observable.splitOn p.batch_delimiter
      else [observable]
  | none => [observable]

/-- The Observable/SourceIndex assignment for one response element
(lines 540-564).  Returns `none` where Python would raise a KeyError or
IndexError (a missing map entry or a response longer than the submission).
A non-string "resource" value is never a key of the string-keyed map, so it
falls to the positional lookup (an unhashable value would raise instead, a
case no decoded scalar produces here). -/
def correlate_row (n_results : Nat) (observable : String) (source_idx : Int)
    (source_row_index : Option (List (String × Int)))
    (observables : List String) (result_idx : Nat) (elem : JObj) :
    Option (JField × Int) :=
  if n_results == 1 || source_row_index == none
      || (source_row_index.getD []).length == 1 then
    some (jstrF observable, source_idx)
  else
    let sri := source_row_index.getD []
    match getField elem "resource" with
    | some vt_resource =>
        let direct :=
          match vt_resource with
          | JField.leaf (JLeaf.jstr s) => slookup sri s
          | _ => none
        match direct with
        | some i => some (vt_resource, i)
        | none =>
            match observables.get? result_idx with
            | some lit => (slookup sri lit).map (fun i => (vt_resource, i))
            | none => none
    | none =>
        match observables.get? result_idx with
        | some lit => (slookup sri lit).map (fun i => (jstrF lit, i))
        | none => none

/-- The per-element loop of `_parse_vt_results` (lines 530-572): parse the
element, stamp IoCType, Status "Success" and the serialized element as
RawResponse (`json.dumps` is external; the element itself is stored),
correlate Observable/SourceIndex, and append.  A failed correlation raises
in Python, so it ends the loop with the rows appended so far kept. -/
def parse_elements (results : List ResultRow) (elems : List JObj)
    (n_results : Nat) (observable : String) (ioc_type : String)
    (source_idx : Int) (source_row_index : Option (List (String × Int)))
    (observables : List String) (result_idx : Nat) : List ResultRow :=
  match elems with
  | [] => results
  | e :: rest =>
      match correlate_row n_results observable source_idx source_row_index
          observables result_idx e with
      | none => results
      | some (obs, si) =>
          let row := { parse_single_result e ioc_type with
                       iocType := some ioc_type
                       status := some "Success"
                       rawResponse := some e
                       observable := some obs
                       sourceIndex := some si }
          parse_elements (results ++ [row]) rest n_results observable ioc_type
            source_idx source_row_index observables (result_idx + 1)

/-- `_parse_vt_results` (lines 479-572), acting on the results table. -/
def parse_vt_results (results : List ResultRow) (vt_results : PyObj)
    (observable : String) (ioc_type : String) (source_idx : Int)
    (source_row_index : Option (List (String × Int)))
    (vt_param : Option VTParams) : List ResultRow :=
  let elems := results_to_parse_of vt_results vt_param
  parse_elements results elems elems.length observable ioc_type source_idx
    source_row_index (submitted_observables observable vt_param) 0

/-- The external Sanitizer (`preprocess_observable`): maps a raw value and
type to a `SanitizedObservable` of optional normalized value and optional
status text. -/
def Sanitize : Type :=
  String → String → Option String × Option String

/-- The external Submission Gateway (`_vt_submit_request`): maps a
submission string and descriptor to a decoded body and an HTTP status code. -/
def Gateway : Type :=
  String → VTParams → PyObj × Int

/-- Python's `a or b` on an optional status string (`None` and `""` are
falsy). -/
def pyOrStr (a : Option String) (b : String) : String :=
  match a with
  | some s => if s == "" then b else s
  | none => b

/-- `_validate_observable` (lines 657-726): sanitize the raw value (recording
an invalid-input row on failure), then run the duplicate check on the RAW
observable; a duplicate yields no value to batch.  Returns the updated table
and the value to batch, if any.  (The source's `observable is None` guard
cannot fire for a string model and is dropped.) -/
def validate_observable (sanitize : Sanitize) (results : List ResultRow)
    (observable : String) (ioc_type : String) (idx : Int) :
    List ResultRow × Option String :=
  let pp := sanitize observable ioc_type
  match pp.1 with
  | none =>
      (add_invalid_input_result results observable ioc_type
        (pyOrStr pp.2 "Unknown status from preprocess_observable") (some idx),
       none)
  | some pp_observable =>
      let dup := check_duplicate_submission results observable ioc_type idx
      if dup.2.is_dup then (dup.1, none)
      else (dup.1, some pp_observable)

/-- One input row of a type's slice: the observable literal and its source
index (the user-specified index column or the frame index). -/
structure InRow where
  observable : String
  index : Int
  deriving Repr, DecidableEq

/-- A record of one flushed batch: the joined submission string, the batch
members, and the status code the gateway returned. -/
structure FlushEvent where
  submission : String
  batch : List String
  status_code : Int
  deriving Repr, DecidableEq

/-- The loop state of `_lookup_ioc_type`: the results table, the pending
batch, and the value-to-source-index dict, plus the trace of flushes (the
source's calls to `_vt_submit_request`). -/
structure LState where
  results : List ResultRow
  obs_batch : List String
  source_row_index : List (String × Int)
  flushes : List FlushEvent
  deriving Repr, DecidableEq

/-- `httpx.codes.OK`. -/
def HTTP_OK : Int := 200

/-- The pending batch after one row of the loop of `_lookup_ioc_type`
(lines 417-422): a valid observable's sanitized value is appended, an
invalid or duplicate row leaves the batch alone. -/
def step_obs_batch (sanitize : Sanitize) (s : LState) (ioc_type : String)
    (row : InRow) : List String :=
  match (validate_observable sanitize s.results row.observable ioc_type
      row.index).2 with
  | some pp => s.obs_batch ++ [pp]
  | none => s.obs_batch

/-- The value-to-source-index dict after one row (line 421): a valid
observable's sanitized value maps to this row's index (overwriting any
earlier entry for the same literal). -/
def step_source_row_index (sanitize : Sanitize) (s : LState)
    (ioc_type : String) (row : InRow) : List (String × Int) :=
  match (validate_observable sanitize s.results row.observable ioc_type
      row.index).2 with
  | some pp => dinsert s.source_row_index pp row.index
  | none => s.source_row_index

/-- One iteration of the row loop of `_lookup_ioc_type` (lines 403-477):
validate the row; if valid append it to the batch and record its index
(dict assignment, last write wins); then flush when the batch has reached
`batch_size` or this is the last row (`row_num == row_count`), and the batch
is non-empty.  On flush the joined string goes to the gateway; a non-OK
status appends one invalid-input row per batch member, an OK status parses
the body; either way the batch resets (the index dict is not reset). -/
def lookup_step (gw : Gateway) (sanitize : Sanitize) (vt_param : VTParams)
    (ioc_type : String) (row_count : Nat) (s : LState) (row_num : Nat)
    (row : InRow) : LState :=
  let results1 := (validate_observable sanitize s.results row.observable
    ioc_type row.index).1
  let obs_batch := step_obs_batch sanitize s ioc_type row
  let sri := step_source_row_index sanitize s ioc_type row
  if (obs_batch.length == vt_param.batch_size || row_num == row_count)
      && !obs_batch.isEmpty then
    let obs_submit := String.intercalate vt_param.batch_delimiter obs_batch
    let r := gw obs_submit vt_param
    let results2 :=
      if r.2 ≠ HTTP_OK then
        obs_batch.foldl (fun acc failed_obs =>
          add_invalid_input_result acc failed_obs ioc_type
            ("Failed submission: http error " ++ toString r.2)
            (slookup sri failed_obs)) results1
      else
        parse_vt_results results1 r.1 obs_submit ioc_type row.index (some sri)
          (some vt_param)
    { results := results2, obs_batch := [], source_row_index := sri,
      flushes := s.flushes ++ [⟨obs_submit, obs_batch, r.2⟩] }
  else
    { results := results1, obs_batch := obs_batch, source_row_index := sri,
      flushes := s.flushes }

/-- The row loop of `_lookup_ioc_type`, with `row_num` counted from 1 as in
the source's `enumerate(..., start=1)`. -/
def lookup_rows (gw : Gateway) (sanitize : Sanitize) (vt_param : VTParams)
    (ioc_type : String) (row_count : Nat) (s : LState) (row_num : Nat) :
    List InRow → LState
  | [] => s
  | row :: rest =>
      lookup_rows gw sanitize vt_param ioc_type row_count
        (lookup_step gw sanitize vt_param ioc_type row_count s row_num row)
        (row_num + 1) rest

/-- `_lookup_ioc_type` (lines 358-477) for one canonical type's slice of
rows: resolve the descriptor through the two registry tables (a KeyError for
an unknown type is `none`) and run the row loop from an empty batch. -/
def lookup_ioc_type (gw : Gateway) (sanitize : Sanitize)
    (results : List ResultRow) (ioc_type : String) (rows : List InRow) :
    Option LState :=
  match slookup VT_TYPE_MAP ioc_type with
  | none => none
  | some vt_type =>
      match slookup VT_API_TYPES vt_type with
      | none => none
      | some vt_param =>
          some (lookup_rows gw sanitize vt_param ioc_type rows.length
            ⟨results, [], [], []⟩ 1 rows)

example :
    (lookup_ioc_type (fun _ _ => (PyObj.onone, 500))
        (fun v _ => (some v, none)) [] "url"
        [⟨"http://a.co", 0⟩]).map (fun s => s.flushes.length) = some 1 := by
  decide

/-- The dict-shaped return of `lookup_ioc` (lines 348-353): the whole results
table as a list of row dicts, except that a single row is returned bare. -/
inductive DictOutput where
  | single (r : ResultRow)
  | many (rs : List ResultRow)
  deriving Repr, DecidableEq

/-- `list_res[0] if len(list_res) == 1 else list_res` over the full table. -/
def lookup_ioc_dict_output : List ResultRow → DictOutput
  | [r] => DictOutput.single r
  | rs => DictOutput.many rs

/-- `lookup_ioc` (lines 278-355) with dict output, acting on the instance's
accumulated results table.  `none` models the raised SyntaxError /
LookupError for an invalid observable or unknown type.  The source discards
the gateway status code here and parses whatever body came back, with
`source_idx = 0`, no value-to-index map and no descriptor. -/
def lookup_ioc (gw : Gateway) (sanitize : Sanitize) (results : List ResultRow)
    (observable : String) (ioc_type : String) :
    Option (List ResultRow × DictOutput) :=
  match (sanitize observable ioc_type).1 with
  | none => none
  | some pp_observable =>
      match slookup VT_TYPE_MAP ioc_type with
      | none => none
      | some vt_type =>
          match slookup VT_API_TYPES vt_type with
          | none => none
          | some vt_param =>
              let r := gw pp_observable vt_param
              let results2 :=
                parse_vt_results results r.1 pp_observable ioc_type 0 none none
              some (results2, lookup_ioc_dict_output results2)

/-! ### Helper lemmas -/

lemma parse_elements_tail (elems : List JObj) (results : List ResultRow)
    (n : Nat) (obs t : String) (si : Int)
    (sri : Option (List (String × Int))) (os : List String) (k : Nat) :
    ∃ tail, parse_elements results elems n obs t si sri os k = results ++ tail := by
  induction elems generalizing results k with
  | nil => exact ⟨[], by simp [parse_elements]⟩
  | cons e rest ih =>
      cases hc : correlate_row n obs si sri os k e with
      | none => exact ⟨[], by simp [parse_elements, hc]⟩
      | some pr =>
          obtain ⟨o, i⟩ := pr
          simp only [parse_elements, hc]
          obtain ⟨tl, h⟩ := ih _ (k + 1)
          rw [h, List.append_assoc]
          exact ⟨_, rfl⟩

lemma parse_vt_results_tail (results : List ResultRow) (vr : PyObj)
    (obs t : String) (si : Int) (sri : Option (List (String × Int)))
    (p : Option VTParams) :
    ∃ tail, parse_vt_results results vr obs t si sri p = results ++ tail :=
  parse_elements_tail _ _ _ _ _ _ _ _ _

lemma add_invalid_tail (results : List ResultRow) (o t st : String)
    (si : Option Int) :
    ∃ tail, add_invalid_input_result results o t st si = results ++ tail :=
  ⟨_, rfl⟩

lemma check_duplicate_tail (results : List ResultRow) (o t : String) (i : Int) :
    ∃ tail, (check_duplicate_submission results o t i).1 = results ++ tail := by
  simp only [check_duplicate_submission]
  split <;> split
  · exact ⟨_, rfl⟩
  · exact ⟨[], by simp⟩
  · exact ⟨_, rfl⟩
  · exact ⟨[], by simp⟩

lemma validate_observable_tail (sanitize : Sanitize) (results : List ResultRow)
    (o t : String) (i : Int) :
    ∃ tail, (validate_observable sanitize results o t i).1 = results ++ tail := by
  simp only [validate_observable]
  split
  · exact ⟨_, rfl⟩
  · split
    · exact check_duplicate_tail results o t i
    · exact check_duplicate_tail results o t i

lemma foldl_add_invalid (batch : List String) (results : List ResultRow)
    (t st : String) (f : String → Option Int) :
    batch.foldl (fun acc o => add_invalid_input_result acc o t st (f o)) results
      = results ++ batch.map (fun o =>
          { observable := some (jstrF o), iocType := some t,
            status := some st, sourceIndex := f o }) := by
  induction batch generalizing results with
  | nil => simp
  | cons b bs ih =>
      rw [List.foldl_cons, ih]
      simp [add_invalid_input_result]

lemma lookup_step_results_tail (gw : Gateway) (sanitize : Sanitize)
    (p : VTParams) (t : String) (rc : Nat) (s : LState) (n : Nat) (row : InRow) :
    ∃ tail, (lookup_step gw sanitize p t rc s n row).results = s.results ++ tail := by
  obtain ⟨t1, h1⟩ := validate_observable_tail sanitize s.results row.observable t
    row.index
  simp only [lookup_step]
  split
  · split
    · rw [foldl_add_invalid, h1, List.append_assoc]
      exact ⟨_, rfl⟩
    · obtain ⟨t2, h2⟩ := parse_vt_results_tail _ _ _ _ _ _ _
      rw [h2, h1, List.append_assoc]
      exact ⟨_, rfl⟩
  · exact ⟨t1, h1⟩

lemma slookup_dinsert_self (m : List (String × Int)) (k : String) (v : Int) :
    slookup (dinsert m k v) k = some v := by
  induction m with
  | nil => simp [slookup, dinsert, List.find?]
  | cons a as ih =>
      by_cases hk : a.1 = k
      · simp [slookup, dinsert, List.find?, hk]
      · have hk' : (a.1 == k) = false := by simp [hk]
        by_cases hs : (as.find? (fun p => p.1 == k)).isSome
        · have hc : ((a :: as).find? (fun p => p.1 == k)).isSome := by
            simp [List.find?, hk', hs]
          simp only [dinsert, hc, if_true, List.map_cons, hk', if_neg hk]
          have ih' := ih
          simp only [dinsert, hs, if_true] at ih'
          simpa [slookup, List.find?, hk'] using ih'
        · have hc : ((a :: as).find? (fun p => p.1 == k)).isSome = false := by
            simp [List.find?, hk', hs]
          simp only [dinsert, hc, Bool.false_eq_true, if_false]
          have ih' := ih
          simp only [dinsert, hs, Bool.false_eq_true, if_false] at ih'
          simpa [slookup, List.find?_cons, hk'] using ih'

/-! ### Claim theorems -/

/-- C8: every operation of the engine — success parsing, duplicate cloning,
invalid-input recording, and the whole per-row step including failure
recording — only appends rows to the results table: the previous table is an
unchanged prefix of the new one, so no existing row moves or changes and the
row count never decreases. -/
theorem c8_result_table_append_only :
    (∀ (results : List ResultRow) (o t st : String) (si : Option Int),
        ∃ tail, add_invalid_input_result results o t st si = results ++ tail)
    ∧ (∀ (results : List ResultRow) (o t : String) (i : Int),
        ∃ tail, (check_duplicate_submission results o t i).1 = results ++ tail)
    ∧ (∀ (results : List ResultRow) (vr : PyObj) (obs t : String) (si : Int)
        (sri : Option (List (String × Int))) (p : Option VTParams),
        ∃ tail, parse_vt_results results vr obs t si sri p = results ++ tail)
    ∧ (∀ (gw : Gateway) (sanitize : Sanitize) (p : VTParams) (t : String)
        (rc : Nat) (s : LState) (n : Nat) (row : InRow),
        ∃ tail, (lookup_step gw sanitize p t rc s n row).results
          = s.results ++ tail) :=
  ⟨add_invalid_tail, check_duplicate_tail, parse_vt_results_tail,
    lookup_step_results_tail⟩

/-- C7: a response body that stays an undecodable string, or decodes to a
shape other than the expected one, makes the parser emit exactly zero rows;
a list shape is accepted exactly when the descriptor's batch size exceeds 1,
and is rejected (zero rows, no failure row) when the batch size is 1. -/
theorem c7_parse_failure_emits_no_rows :
    (∀ (results : List ResultRow) (body obs t : String) (si : Int)
        (sri : Option (List (String × Int))) (p : VTParams),
        parse_vt_results results (PyObj.ostr body) obs t si sri (some p)
          = results)
    ∧ (∀ (results : List ResultRow) (obs t : String) (si : Int)
        (sri : Option (List (String × Int))) (p : VTParams),
        parse_vt_results results PyObj.oother obs t si sri (some p) = results
        ∧ parse_vt_results results PyObj.onone obs t si sri (some p) = results)
    ∧ (∀ (xs : List JObj) (p : VTParams),
        results_to_parse_of (PyObj.olist xs) (some p)
          = if 1 < p.batch_size then xs else [])
    ∧ (∀ (results : List ResultRow) (xs : List JObj) (obs t : String)
        (si : Int) (sri : Option (List (String × Int))) (p : VTParams),
        p.batch_size ≤ 1 →
          parse_vt_results results (PyObj.olist xs) obs t si sri (some p)
            = results) := by
  refine ⟨fun _ _ _ _ _ _ _ => rfl, fun _ _ _ _ _ _ => ⟨rfl, rfl⟩,
    fun _ _ => rfl, fun results xs obs t si sri p h => ?_⟩
  simp only [parse_vt_results, results_to_parse_of, if_neg (not_lt.mpr h)]
  rfl

/-- Witness for C7: a list-shaped body for the url descriptor (batch size 1)
yields zero rows. -/
theorem c7_parse_failure_witness :
    parse_vt_results []
      (PyObj.olist [[("response_code", JField.leaf (JLeaf.jnum 1))]])
      "http://a.co" "url" 0 none (some ⟨"url", 1, "\n", "get", "resource"⟩)
      = [] :=
  c7_parse_failure_emits_no_rows.2.2.2 []
    [[("response_code", JField.leaf (JLeaf.jnum 1))]] "http://a.co" "url" 0
    none ⟨"url", 1, "\n", "get", "resource"⟩ (by decide)

/-- C5 (code evidence): on a fully populated file-report element, the parser
extracts every scalar field and the three hashes for the "md5_hash" and
"sha1_hash" canonical types, but for the third supported hash type
"sh256_hash" it extracts nothing at all — the extraction branch tests the
spelling "sha256_hash", which is not among the supported input types. -/
theorem c5_sh256_extraction_gap :
    (parse_single_result
        [("response_code", JField.leaf (JLeaf.jnum 1)), ("verbose_msg", jstrF "ok"),
         ("scan_id", jstrF "sid"), ("resource", jstrF "res"),
         ("permalink", jstrF "lnk"), ("positives", JField.leaf (JLeaf.jnum 4)),
         ("md5", jstrF "m5"), ("sha1", jstrF "s1"), ("sha256", jstrF "s2")]
        "sh256_hash" = ({} : ResultRow))
    ∧ (parse_single_result
        [("response_code", JField.leaf (JLeaf.jnum 1)), ("verbose_msg", jstrF "ok"),
         ("scan_id", jstrF "sid"), ("resource", jstrF "res"),
         ("permalink", jstrF "lnk"), ("positives", JField.leaf (JLeaf.jnum 4)),
         ("md5", jstrF "m5"), ("sha1", jstrF "s1"), ("sha256", jstrF "s2")]
        "sha1_hash").md5 = some (jstrF "m5")
    ∧ (parse_single_result
        [("response_code", JField.leaf (JLeaf.jnum 1)), ("verbose_msg", jstrF "ok"),
         ("scan_id", jstrF "sid"), ("resource", jstrF "res"),
         ("permalink", jstrF "lnk"), ("positives", JField.leaf (JLeaf.jnum 4)),
         ("md5", jstrF "m5"), ("sha1", jstrF "s1"), ("sha256", jstrF "s2")]
        "sha1_hash").responseCode = some (JField.leaf (JLeaf.jnum 1))
    ∧ "sh256_hash" ∈ SUPPORTED_INPUT_TYPES
    ∧ "sha256_hash" ∉ SUPPORTED_INPUT_TYPES := by
  refine ⟨?_, ?_, ?_, ?_, ?_⟩ <;> decide

lemma strValues_entries (k extra : String) (vs : List (String × Int)) :
    strValues k (vs.map (fun v => [(k, JLeaf.jstr v.1), (extra, JLeaf.jnum v.2)]))
      = vs.map Prod.fst := by
  induction vs with
  | nil => rfl
  | cons v rest ih =>
      simp only [List.map_cons, strValues, List.filterMap_cons] at ih ⊢
      simp only [getLeaf, List.find?, beq_self_eq_true, Option.map_some]
      simpa [strValues] using ih

lemma strValues_single (k : String) (vs : List String) :
    strValues k (vs.map (fun v => [(k, JLeaf.jstr v)])) = vs := by
  induction vs with
  | nil => rfl
  | cons v rest ih =>
      simp only [List.map_cons, strValues, List.filterMap_cons] at ih ⊢
      simp only [getLeaf, List.find?, beq_self_eq_true, Option.map_some]
      simpa [strValues] using ih

lemma intSum_entries (vs : List (String × Int)) :
    intSum "positives"
        (vs.map (fun v => [("url", JLeaf.jstr v.1), ("positives", JLeaf.jnum v.2)]))
      = (vs.map Prod.snd).sum := by
  induction vs with
  | nil => rfl
  | cons v rest ih =>
      simp only [List.map_cons, intSum, List.filterMap_cons] at ih ⊢
      simp only [getLeaf, List.find?]
      norm_num
      simpa [intSum] using ih

/-- C6: an ip-type response whose "resolutions" entries carry hostnames
yields ResolvedDomains equal to the comma-joined hostnames (symmetrically a
dns-type response's ip_address values yield ResolvedIPs), and for BOTH the
ip and the dns type a "detected_urls" list yields DetectedUrls equal to the
comma-joined urls with Positives the sum of the per-entry positives counts,
overriding any top-level positives value. -/
theorem c6_multivalued_flattening (hs ips : List String)
    (us : List (String × Int)) (ptop : JField) :
    ((parse_single_result
        [("positives", ptop),
         ("resolutions", JField.list (hs.map (fun h => [("hostname", JLeaf.jstr h)]))),
         ("detected_urls", JField.list (us.map (fun u =>
            [("url", JLeaf.jstr u.1), ("positives", JLeaf.jnum u.2)])))]
        "ipv4").resolvedDomains = some (String.intercalate ", " hs))
    ∧ ((parse_single_result
        [("positives", ptop),
         ("resolutions", JField.list (hs.map (fun h => [("hostname", JLeaf.jstr h)]))),
         ("detected_urls", JField.list (us.map (fun u =>
            [("url", JLeaf.jstr u.1), ("positives", JLeaf.jnum u.2)])))]
        "ipv4").detectedUrls = some (String.intercalate ", " (us.map Prod.fst)))
    ∧ ((parse_single_result
        [("positives", ptop),
         ("resolutions", JField.list (hs.map (fun h => [("hostname", JLeaf.jstr h)]))),
         ("detected_urls", JField.list (us.map (fun u =>
            [("url", JLeaf.jstr u.1), ("positives", JLeaf.jnum u.2)])))]
        "ipv4").positives
      = some (JField.leaf (JLeaf.jnum (us.map Prod.snd).sum)))
    ∧ ((parse_single_result
        [("positives", ptop),
         ("resolutions", JField.list (ips.map (fun a => [("ip_address", JLeaf.jstr a)]))),
         ("detected_urls", JField.list (us.map (fun u =>
            [("url", JLeaf.jstr u.1), ("positives", JLeaf.jnum u.2)])))]
        "dns").resolvedIPs = some (String.intercalate ", " ips))
    ∧ ((parse_single_result
        [("positives", ptop),
         ("resolutions", JField.list (ips.map (fun a => [("ip_address", JLeaf.jstr a)]))),
         ("detected_urls", JField.list (us.map (fun u =>
            [("url", JLeaf.jstr u.1), ("positives", JLeaf.jnum u.2)])))]
        "dns").detectedUrls = some (String.intercalate ", " (us.map Prod.fst)))
    ∧ ((parse_single_result
        [("positives", ptop),
         ("resolutions", JField.list (ips.map (fun a => [("ip_address", JLeaf.jstr a)]))),
         ("detected_urls", JField.list (us.map (fun u =>
            [("url", JLeaf.jstr u.1), ("positives", JLeaf.jnum u.2)])))]
        "dns").positives
      = some (JField.leaf (JLeaf.jnum (us.map Prod.snd).sum))) := by
  refine ⟨?_, ?_, ?_, ?_, ?_, ?_⟩ <;>
    simp [parse_single_result, getField, hasField, listItems, List.find?,
      strValues_single, strValues_entries, intSum_entries]

/-- C1 (counterexample): with two response elements and a two-entry map, an
element carrying a "resource" value that is NOT a key of the map gets
Observable set to that resource value, not to the Nth submitted literal as
the claim's fallback path states (only its SourceIndex falls back to the
positional entry). -/
theorem c1_counterexample :
    correlate_row 2 "a,b" 99 (some [("a", 0), ("b", 1)]) ["a", "b"] 0
        [("resource", jstrF "zzz")]
      = some (jstrF "zzz", 0)
    ∧ jstrF "zzz" ≠ jstrF "a" := by decide

/-- C1 (amended): for a batch response with more than one element and a map
with at least two entries, an element with a "resource" field always gets
Observable = that resource value, with SourceIndex = the mapped index when
the resource is a key of the map and otherwise the map entry for the Nth
submitted literal; only an element without a "resource" field falls back to
Observable = the Nth literal and SourceIndex = the map entry for it. -/
theorem c1_two_path_correlation (n : Nat) (obs : String) (si : Int)
    (m : List (String × Int)) (os : List String) (k : Nat) (e : JObj)
    (hn : 2 ≤ n) (hm : 2 ≤ m.length) :
    (∀ (r : String) (i : Int),
        getField e "resource" = some (jstrF r) → slookup m r = some i →
          correlate_row n obs si (some m) os k e = some (jstrF r, i))
    ∧ (∀ (r lit : String),
        getField e "resource" = some (jstrF r) → slookup m r = none →
          os.get? k = some lit →
          correlate_row n obs si (some m) os k e
            = (slookup m lit).map (fun i => (jstrF r, i)))
    ∧ (getField e "resource" = none →
        ∀ lit, os.get? k = some lit →
          correlate_row n obs si (some m) os k e
            = (slookup m lit).map (fun i => (jstrF lit, i))) := by
  have hcase : ¬(n = 1 ∨ m.length = 1) := by omega
  refine ⟨?_, ?_, ?_⟩
  · intro r i h1 h2
    simp [correlate_row, h1, h2, jstrF, hcase]
  · intro r lit h1 h2 h3
    rw [List.get?_eq_getElem?] at h3
    simp [correlate_row, h1, h2, h3, jstrF, hcase]
  · intro h1 lit h2
    rw [List.get?_eq_getElem?] at h2
    simp [correlate_row, h1, h2, jstrF, hcase]

/-- Witness for C1: a second element whose resource "b" is a key of the map
correlates to ("b", index 1). -/
theorem c1_two_path_witness :
    correlate_row 2 "a,b" 99 (some [("a", 0), ("b", 1)]) ["a", "b"] 1
        [("resource", jstrF "b")]
      = some (jstrF "b", 1) :=
  (c1_two_path_correlation 2 "a,b" 99 [("a", 0), ("b", 1)] ["a", "b"] 1
      [("resource", jstrF "b")] (by decide) (by decide)).1 "b" 1 (by decide)
    (by decide)

lemma check_dup_eq_obs (results : List ResultRow) (obs t : String) (i : Int)
    (h : results.filter (fun r => r.observable == some (jstrF obs)) ≠ []) :
    check_duplicate_submission results obs t i
      = (results
          ++ (results.filter (fun r => r.observable == some (jstrF obs))).map
              (fun r => { r with sourceIndex := some i, status := some "Duplicate" }),
         ⟨true, (results.filter (fun r => r.observable == some (jstrF obs))).map
              (fun r => r.sourceIndex)⟩) := by
  have hlen : ((results.filter (fun r => r.observable == some (jstrF obs))).length == 0)
      = false := by
    simpa [List.length_eq_zero] using h
  have hpos : 0 < (results.filter (fun r => r.observable == some (jstrF obs))).length :=
    List.length_pos.mpr h
  simp only [check_duplicate_submission, hlen, Bool.false_and, Bool.false_eq_true,
    if_false, if_pos hpos]

lemma check_dup_eq_hash (results : List ResultRow) (obs t : String) (i : Int)
    (h0 : results.filter (fun r => r.observable == some (jstrF obs)) = [])
    (ht : t ∈ ["md5_hash", "sha1_hash", "sh256_hash"])
    (h1 : results.filter (fun r => r.md5 == some (jstrF obs)
        || r.sha1 == some (jstrF obs) || r.sha256 == some (jstrF obs)) ≠ []) :
    check_duplicate_submission results obs t i
      = (results
          ++ ((results.filter (fun r => r.md5 == some (jstrF obs)
              || r.sha1 == some (jstrF obs) || r.sha256 == some (jstrF obs))).map
            (fun r => { r with observable := some (jstrF obs) })).map
              (fun r => { r with sourceIndex := some i, status := some "Duplicate" }),
         ⟨true, ((results.filter (fun r => r.md5 == some (jstrF obs)
              || r.sha1 == some (jstrF obs) || r.sha256 == some (jstrF obs))).map
            (fun r => { r with observable := some (jstrF obs) })).map
              (fun r => r.sourceIndex)⟩) := by
  have hpos : 0 < (((results.filter (fun r => r.md5 == some (jstrF obs)
      || r.sha1 == some (jstrF obs) || r.sha256 == some (jstrF obs))).map
        (fun r => { r with observable := some (jstrF obs) }))).length := by
    simpa [List.length_map] using List.length_pos.mpr h1
  have hd : decide (t ∈ ["md5_hash", "sha1_hash", "sh256_hash"]) = true :=
    decide_eq_true ht
  simp only [check_duplicate_submission, h0, List.length_nil,
    beq_self_eq_true, Bool.true_and, hd, if_true]
  simp only [if_pos hpos]

lemma validate_dup_none (san : Sanitize) (results : List ResultRow)
    (obs t : String) (i : Int)
    (h : (check_duplicate_submission results obs t i).2.is_dup = true) :
    (validate_observable san results obs t i).2 = none := by
  simp only [validate_observable]
  split
  · rfl
  · simp [h]

/-- C2 (amended): for a hash-type observable whose exact literal value
already appears in the Observable, MD5, SHA1 or SHA256 column of some row,
the check reports a duplicate, appends one clone per matching row with
Status "Duplicate", SourceIndex overwritten to the new row's index and
Observable the submitted literal, reports the matched rows' original
SourceIndex values, and the validation step returns no value to batch, so
no gateway call is made for the observable. -/
theorem c2_duplicate_exact_match (results : List ResultRow) (obs t : String)
    (i : Int)
    (ht : t ∈ ["md5_hash", "sha1_hash", "sh256_hash"])
    (hmatch : ∃ r ∈ results, r.observable = some (jstrF obs)
        ∨ r.md5 = some (jstrF obs) ∨ r.sha1 = some (jstrF obs)
        ∨ r.sha256 = some (jstrF obs)) :
    ((check_duplicate_submission results obs t i).2.is_dup = true)
    ∧ (∃ clones, clones ≠ []
        ∧ (check_duplicate_submission results obs t i).1 = results ++ clones
        ∧ clones.length
            = (check_duplicate_submission results obs t i).2.orig_indices.length
        ∧ ∀ c ∈ clones, c.status = some "Duplicate" ∧ c.sourceIndex = some i
            ∧ c.observable = some (jstrF obs))
    ∧ (∀ j ∈ (check_duplicate_submission results obs t i).2.orig_indices,
        ∃ r ∈ results, r.sourceIndex = j
          ∧ (r.observable = some (jstrF obs) ∨ r.md5 = some (jstrF obs)
             ∨ r.sha1 = some (jstrF obs) ∨ r.sha256 = some (jstrF obs)))
    ∧ (∀ san : Sanitize, (validate_observable san results obs t i).2 = none) := by
  by_cases h0 : results.filter (fun r => r.observable == some (jstrF obs)) = []
  · -- the literal Observable column has no match: the hash-column branch fires
    obtain ⟨r, hr, hdisj⟩ := hmatch
    have hnobs : ¬ r.observable = some (jstrF obs) := by
      intro hh
      have := List.filter_eq_nil_iff.mp h0 r hr
      simp [hh] at this
    have hhash : r.md5 = some (jstrF obs) ∨ r.sha1 = some (jstrF obs)
        ∨ r.sha256 = some (jstrF obs) := by
      rcases hdisj with h | h | h | h
      · exact absurd h hnobs
      · exact Or.inl h
      · exact Or.inr (Or.inl h)
      · exact Or.inr (Or.inr h)
    have h1 : results.filter (fun r => r.md5 == some (jstrF obs)
        || r.sha1 == some (jstrF obs) || r.sha256 == some (jstrF obs)) ≠ [] := by
      intro hh
      have := List.filter_eq_nil_iff.mp hh r hr
      rcases hhash with h | h | h <;> simp [h] at this
    rw [check_dup_eq_hash results obs t i h0 ht h1]
    have hdup : (check_duplicate_submission results obs t i).2.is_dup = true := by
      rw [check_dup_eq_hash results obs t i h0 ht h1]
    refine ⟨rfl, ⟨_, ?_, rfl, by simp, ?_⟩, ?_, fun san => validate_dup_none san _ _ _ _ hdup⟩
    · simp [h1]
    · intro c hc
      simp only [List.map_map, List.mem_map, Function.comp] at hc
      obtain ⟨r', _, rfl⟩ := hc
      exact ⟨rfl, rfl, rfl⟩
    · intro j hj
      simp only [List.map_map, List.mem_map, Function.comp] at hj
      obtain ⟨r', hr', hj'⟩ := hj
      have hmem := (List.mem_filter.mp hr').1
      have hpred := (List.mem_filter.mp hr').2
      simp only [Bool.or_eq_true, beq_iff_eq] at hpred
      refine ⟨r', hmem, ?_, ?_⟩
      · exact hj'
      · rcases hpred with (h | h) | h
        · exact Or.inr (Or.inl h)
        · exact Or.inr (Or.inr (Or.inl h))
        · exact Or.inr (Or.inr (Or.inr h))
  · -- the literal Observable column matches directly
    rw [check_dup_eq_obs results obs t i h0]
    have hdup : (check_duplicate_submission results obs t i).2.is_dup = true := by
      rw [check_dup_eq_obs results obs t i h0]
    refine ⟨rfl, ⟨_, ?_, rfl, by simp, ?_⟩, ?_, fun san => validate_dup_none san _ _ _ _ hdup⟩
    · simp [h0]
    · intro c hc
      simp only [List.mem_map] at hc
      obtain ⟨r', hr', rfl⟩ := hc
      have hpred := (List.mem_filter.mp hr').2
      simp only [beq_iff_eq] at hpred
      exact ⟨rfl, rfl, hpred⟩
    · intro j hj
      simp only [List.mem_map] at hj
      obtain ⟨r', hr', hj'⟩ := hj
      have hmem := (List.mem_filter.mp hr').1
      have hpred := (List.mem_filter.mp hr').2
      simp only [beq_iff_eq] at hpred
      exact ⟨r', hmem, hj', Or.inl hpred⟩

/-- C2 (counterexample): case-equivalence does NOT hold — a hash value
already recorded as "aa" (in both the Observable and MD5 columns) is not
detected as a duplicate when resubmitted as its case-equivalent literal
"AA": the check reports no duplicate and appends nothing. -/
theorem c2_counterexample :
    ("AA" ≠ "aa" ∧ "AA".data.map Char.toLower = "aa".data)
    ∧ ((check_duplicate_submission
        [{ observable := some (jstrF "aa"), md5 := some (jstrF "aa"),
           iocType := some "md5_hash", status := some "Success",
           sourceIndex := some 0 }] "AA" "md5_hash" 1).2.is_dup = false)
    ∧ ((check_duplicate_submission
        [{ observable := some (jstrF "aa"), md5 := some (jstrF "aa"),
           iocType := some "md5_hash", status := some "Success",
           sourceIndex := some 0 }] "AA" "md5_hash" 1).1
      = [{ observable := some (jstrF "aa"), md5 := some (jstrF "aa"),
           iocType := some "md5_hash", status := some "Success",
           sourceIndex := some 0 }]) := by
  refine ⟨?_, ?_, ?_⟩ <;> decide

/-- Witness for C2: a concrete MD5-column match is reported as duplicate and
yields nothing to batch. -/
theorem c2_duplicate_witness :
    ((check_duplicate_submission
        [{ md5 := some (jstrF "aa"), sourceIndex := some 0 }]
        "aa" "md5_hash" 5).2.is_dup = true)
    ∧ (∀ san : Sanitize,
        (validate_observable san
          [{ md5 := some (jstrF "aa"), sourceIndex := some 0 }]
          "aa" "md5_hash" 5).2 = none) :=
  ⟨(c2_duplicate_exact_match
      [{ md5 := some (jstrF "aa"), sourceIndex := some 0 }] "aa" "md5_hash" 5
      (by decide) ⟨{ md5 := some (jstrF "aa"), sourceIndex := some 0 }, by decide⟩).1,
   (c2_duplicate_exact_match
      [{ md5 := some (jstrF "aa"), sourceIndex := some 0 }] "aa" "md5_hash" 5
      (by decide) ⟨{ md5 := some (jstrF "aa"), sourceIndex := some 0 }, by decide⟩).2.2.2⟩

/-- C4 (counterexample): a flushed batch failing with HTTP 500 and a non-empty
response body produces a failure row whose RawResponse is EMPTY (none), not
the returned body as the claim states; Status and the empty ResponseCode are
as claimed. -/
theorem c4_counterexample :
    ((lookup_step
        (fun _ _ => (PyObj.odict [("error", jstrF "quota exceeded")], 500))
        (fun v _ => (some v, none)) ⟨"url", 1, "\n", "get", "resource"⟩
        "url" 1 ⟨[], [], [], []⟩ 1 ⟨"http://x.co", 3⟩).results.map
      (fun r => (r.status, r.responseCode, r.rawResponse))
      = [(some "Failed submission: http error 500", none, none)])
    ∧ ((fun (_ : String) (_ : VTParams) =>
          (PyObj.odict [("error", jstrF "quota exceeded")], (500 : Int)))
        "http://x.co" ⟨"url", 1, "\n", "get", "resource"⟩).1 ≠ PyObj.onone := by
  refine ⟨?_, ?_⟩ <;> decide

/-- C4 (amended): on a flushed batch whose gateway call returns a non-OK
status code, every batch member receives a row with Status "Failed
submission: http error {code}" and its source index from the value-to-index
dict, with ResponseCode left empty AND RawResponse left empty too — the
returned body appears only in the logged message, not in any row. -/
theorem c4_transport_failure_rows (gw : Gateway) (san : Sanitize)
    (p : VTParams) (t : String) (rc : Nat) (s : LState) (n : Nat) (row : InRow)
    (body : PyObj) (code : Int)
    (hgw : gw (String.intercalate p.batch_delimiter (step_obs_batch san s t row)) p
      = (body, code))
    (hcode : code ≠ HTTP_OK)
    (hsize : (step_obs_batch san s t row).length = p.batch_size ∨ n = rc)
    (hne : step_obs_batch san s t row ≠ []) :
    ((lookup_step gw san p t rc s n row).results
      = (validate_observable san s.results row.observable t row.index).1
        ++ (step_obs_batch san s t row).map (fun o =>
            { observable := some (jstrF o), iocType := some t,
              status := some ("Failed submission: http error " ++ toString code),
              sourceIndex := slookup (step_source_row_index san s t row) o }))
    ∧ ∀ r ∈ (step_obs_batch san s t row).map (fun o =>
            ({ observable := some (jstrF o), iocType := some t,
               status := some ("Failed submission: http error " ++ toString code),
               sourceIndex := slookup (step_source_row_index san s t row) o }
              : ResultRow)),
        r.responseCode = none ∧ r.rawResponse = none := by
  have hb : (((step_obs_batch san s t row).length == p.batch_size || n == rc)
      && !(step_obs_batch san s t row).isEmpty) = true := by
    have h1 : ((step_obs_batch san s t row).length == p.batch_size || n == rc)
        = true := by
      rcases hsize with h | h <;> simp [h]
    have h2 : (step_obs_batch san s t row).isEmpty = false := by
      simpa [List.isEmpty_iff] using hne
    simp [h1, h2]
  constructor
  · simp only [lookup_step, hb, if_true, hgw]
    rw [if_pos hcode, foldl_add_invalid]
  · intro r hr
    simp only [List.mem_map] at hr
    obtain ⟨o, _, rfl⟩ := hr
    exact ⟨rfl, rfl⟩

/-- Witness for C4: the single-observable url batch failing with HTTP 500. -/
theorem c4_transport_failure_witness :
    (lookup_step
        (fun _ _ => (PyObj.odict [("error", jstrF "quota exceeded")], 500))
        (fun v _ => (some v, none)) ⟨"url", 1, "\n", "get", "resource"⟩
        "url" 1 ⟨[], [], [], []⟩ 1 ⟨"http://x.co", 3⟩).results
      = (validate_observable (fun v _ => (some v, none)) [] "http://x.co"
          "url" 3).1
        ++ (step_obs_batch (fun v _ => (some v, none)) ⟨[], [], [], []⟩ "url"
            ⟨"http://x.co", 3⟩).map (fun o =>
            { observable := some (jstrF o), iocType := some "url",
              status := some ("Failed submission: http error " ++ toString (500 : Int)),
              sourceIndex := slookup (step_source_row_index
                (fun v _ => (some v, none)) ⟨[], [], [], []⟩ "url"
                ⟨"http://x.co", 3⟩) o }) :=
  (c4_transport_failure_rows
      (fun _ _ => (PyObj.odict [("error", jstrF "quota exceeded")], 500))
      (fun v _ => (some v, none)) ⟨"url", 1, "\n", "get", "resource"⟩
      "url" 1 ⟨[], [], [], []⟩ 1 ⟨"http://x.co", 3⟩
      (PyObj.odict [("error", jstrF "quota exceeded")]) 500
      rfl (by decide) (by decide) (by decide)).1

lemma dict_output_many (l : List ResultRow) (h : l.length ≠ 1) :
    lookup_ioc_dict_output l = DictOutput.many l := by
  cases l with
  | nil => rfl
  | cons a rest =>
      cases rest with
      | nil => simp at h
      | cons b r2 => rfl

/-- C9: the dict-shaped return of the single-observable entry point is built
from the instance's entire accumulated results table: the table before the
call is a prefix of the table the return value enumerates, a single
accumulated row comes back as a bare dict, and any other row count comes
back as the list of every row of the table (earlier lookups' rows
included). -/
theorem c9_dict_output_accumulates (gw : Gateway) (san : Sanitize)
    (prior : List ResultRow) (obs t : String) (res2 : List ResultRow)
    (out : DictOutput)
    (h : lookup_ioc gw san prior obs t = some (res2, out)) :
    (∃ tail, res2 = prior ++ tail)
    ∧ (∀ r, res2 = [r] → out = DictOutput.single r)
    ∧ (res2.length ≠ 1 → out = DictOutput.many res2) := by
  cases h1 : (san obs t).1 with
  | none => simp [lookup_ioc, h1] at h
  | some pp =>
      cases h2 : slookup VT_TYPE_MAP t with
      | none => simp [lookup_ioc, h1, h2] at h
      | some vtt =>
          cases h3 : slookup VT_API_TYPES vtt with
          | none => simp [lookup_ioc, h1, h2, h3] at h
          | some vtp =>
              simp only [lookup_ioc, h1, h2, h3, Option.some_inj,
                Prod.mk.injEq] at h
              obtain ⟨hres, hout⟩ := h
              subst hres
              subst hout
              refine ⟨parse_vt_results_tail prior (gw pp vtp).1 pp t 0 none none,
                ?_, ?_⟩
              · intro r hr
                rw [hr]
                rfl
              · intro hlen
                exact dict_output_many _ hlen

/-- Witness for C9: one prior row plus one freshly parsed ipv4 row come back
as a two-element list containing the prior row. -/
theorem c9_dict_output_witness :
    (∃ tail,
        ([{ observable := some (jstrF "old"), sourceIndex := some 0 },
          { observable := some (jstrF "1.2.3.4"), iocType := some "ipv4",
            status := some "Success",
            responseCode := some (JField.leaf (JLeaf.jnum 1)),
            rawResponse := some [("response_code", JField.leaf (JLeaf.jnum 1))],
            sourceIndex := some 0 }] : List ResultRow)
          = [{ observable := some (jstrF "old"), sourceIndex := some 0 }] ++ tail)
    ∧ (∀ r, ([{ observable := some (jstrF "old"), sourceIndex := some 0 },
          { observable := some (jstrF "1.2.3.4"), iocType := some "ipv4",
            status := some "Success",
            responseCode := some (JField.leaf (JLeaf.jnum 1)),
            rawResponse := some [("response_code", JField.leaf (JLeaf.jnum 1))],
            sourceIndex := some 0 }] : List ResultRow) = [r] →
        DictOutput.many
          [{ observable := some (jstrF "old"), sourceIndex := some 0 },
           { observable := some (jstrF "1.2.3.4"), iocType := some "ipv4",
             status := some "Success",
             responseCode := some (JField.leaf (JLeaf.jnum 1)),
             rawResponse := some [("response_code", JField.leaf (JLeaf.jnum 1))],
             sourceIndex := some 0 }] = DictOutput.single r)
    ∧ (([{ observable := some (jstrF "old"), sourceIndex := some 0 },
          { observable := some (jstrF "1.2.3.4"), iocType := some "ipv4",
            status := some "Success",
            responseCode := some (JField.leaf (JLeaf.jnum 1)),
            rawResponse := some [("response_code", JField.leaf (JLeaf.jnum 1))],
            sourceIndex := some 0 }] : List ResultRow).length ≠ 1 →
        DictOutput.many
          [{ observable := some (jstrF "old"), sourceIndex := some 0 },
           { observable := some (jstrF "1.2.3.4"), iocType := some "ipv4",
             status := some "Success",
             responseCode := some (JField.leaf (JLeaf.jnum 1)),
             rawResponse := some [("response_code", JField.leaf (JLeaf.jnum 1))],
             sourceIndex := some 0 }]
          = DictOutput.many
            [{ observable := some (jstrF "old"), sourceIndex := some 0 },
             { observable := some (jstrF "1.2.3.4"), iocType := some "ipv4",
               status := some "Success",
               responseCode := some (JField.leaf (JLeaf.jnum 1)),
               rawResponse := some [("response_code", JField.leaf (JLeaf.jnum 1))],
               sourceIndex := some 0 }]) :=
  c9_dict_output_accumulates
    (fun _ _ => (PyObj.odict [("response_code", JField.leaf (JLeaf.jnum 1))], 200))
    (fun v _ => (some v, none))
    [{ observable := some (jstrF "old"), sourceIndex := some 0 }]
    "1.2.3.4" "ipv4"
    [{ observable := some (jstrF "old"), sourceIndex := some 0 },
     { observable := some (jstrF "1.2.3.4"), iocType := some "ipv4",
       status := some "Success",
       responseCode := some (JField.leaf (JLeaf.jnum 1)),
       rawResponse := some [("response_code", JField.leaf (JLeaf.jnum 1))],
       sourceIndex := some 0 }]
    (DictOutput.many
      [{ observable := some (jstrF "old"), sourceIndex := some 0 },
       { observable := some (jstrF "1.2.3.4"), iocType := some "ipv4",
         status := some "Success",
         responseCode := some (JField.leaf (JLeaf.jnum 1)),
         rawResponse := some [("response_code", JField.leaf (JLeaf.jnum 1))],
         sourceIndex := some 0 }])
    (by decide)

/-- C10: the duplicate check consults only rows already appended to the
results table, so two identical valid observable literals landing in the
same not-yet-flushed batch are neither one marked Duplicate: the results
table is unchanged, the batch holds the literal twice, the value-to-index
dict retains only the later row's source index, and no flush happens. -/
theorem c10_same_batch_no_dedup (gw : Gateway) (san : Sanitize) (p : VTParams)
    (t : String) (rc : Nat) (s : LState) (n : Nat) (v pp : String) (i1 i2 : Int)
    (hsan : san v t = (some pp, none))
    (hnodup : ∀ r ∈ s.results, r.observable ≠ some (jstrF v)
        ∧ r.md5 ≠ some (jstrF v) ∧ r.sha1 ≠ some (jstrF v)
        ∧ r.sha256 ≠ some (jstrF v))
    (hb1 : s.obs_batch.length + 1 ≠ p.batch_size) (hr1 : n ≠ rc)
    (hb2 : s.obs_batch.length + 2 ≠ p.batch_size) (hr2 : n + 1 ≠ rc) :
    ((lookup_step gw san p t rc
        (lookup_step gw san p t rc s n ⟨v, i1⟩) (n + 1) ⟨v, i2⟩).results
      = s.results)
    ∧ ((lookup_step gw san p t rc
        (lookup_step gw san p t rc s n ⟨v, i1⟩) (n + 1) ⟨v, i2⟩).obs_batch
      = s.obs_batch ++ [pp, pp])
    ∧ (slookup (lookup_step gw san p t rc
        (lookup_step gw san p t rc s n ⟨v, i1⟩) (n + 1) ⟨v, i2⟩).source_row_index
        pp
      = some i2)
    ∧ ((lookup_step gw san p t rc
        (lookup_step gw san p t rc s n ⟨v, i1⟩) (n + 1) ⟨v, i2⟩).flushes
      = s.flushes) := by
  have hd0 : s.results.filter (fun r => r.observable == some (jstrF v)) = [] := by
    refine List.filter_eq_nil_iff.mpr (fun r hr => ?_)
    simp [beq_iff_eq, (hnodup r hr).1]
  have hd1 : s.results.filter (fun r => r.md5 == some (jstrF v)
      || r.sha1 == some (jstrF v) || r.sha256 == some (jstrF v)) = [] := by
    refine List.filter_eq_nil_iff.mpr (fun r hr => ?_)
    simp [beq_iff_eq, (hnodup r hr).2.1, (hnodup r hr).2.2.1,
      (hnodup r hr).2.2.2]
  have hcds : ∀ i : Int, check_duplicate_submission s.results v t i
      = (s.results, ⟨false, []⟩) := by
    intro i
    simp [check_duplicate_submission, hd0, hd1]
  have hval : ∀ i : Int, validate_observable san s.results v t i
      = (s.results, some pp) := by
    intro i
    simp [validate_observable, hsan, hcds i]
  have hcond1 : (((s.obs_batch ++ [pp]).length == p.batch_size || n == rc)
      && !(s.obs_batch ++ [pp]).isEmpty) = false := by
    have e1 : ((s.obs_batch ++ [pp]).length == p.batch_size) = false := by
      simp only [List.length_append, List.length_cons, List.length_nil,
        beq_eq_false_iff_ne, ne_eq]
      omega
    have e2 : (n == rc) = false := by simpa using hr1
    simp [e2]
    omega
  have hs1 : lookup_step gw san p t rc s n ⟨v, i1⟩
      = ⟨s.results, s.obs_batch ++ [pp], dinsert s.source_row_index pp i1,
         s.flushes⟩ := by
    simp only [lookup_step, step_obs_batch, step_source_row_index, hval i1,
      hcond1]
    rfl
  have hval2 : ∀ i : Int, validate_observable san s.results v t i
      = (s.results, some pp) := hval
  have hcond2 : ((((s.obs_batch ++ [pp]) ++ [pp]).length == p.batch_size
      || (n + 1) == rc) && !((s.obs_batch ++ [pp]) ++ [pp]).isEmpty) = false := by
    have e1 : (((s.obs_batch ++ [pp]) ++ [pp]).length == p.batch_size) = false := by
      simp only [List.length_append, List.length_cons, List.length_nil,
        beq_eq_false_iff_ne, ne_eq]
      omega
    have e2 : ((n + 1) == rc) = false := by simpa using hr2
    simp [e2]
    omega
  have hs2 : lookup_step gw san p t rc
      (⟨s.results, s.obs_batch ++ [pp], dinsert s.source_row_index pp i1,
        s.flushes⟩ : LState) (n + 1) ⟨v, i2⟩
      = ⟨s.results, (s.obs_batch ++ [pp]) ++ [pp],
         dinsert (dinsert s.source_row_index pp i1) pp i2, s.flushes⟩ := by
    simp only [lookup_step, step_obs_batch, step_source_row_index, hval2 i2,
      hcond2]
    rfl
  rw [hs1, hs2]
  refine ⟨rfl, by simp, ?_, rfl⟩
  exact slookup_dinsert_self _ pp i2

/-- Witness for C10: the same md5 literal twice in one unflushed file batch
(batch size 25). -/
theorem c10_same_batch_witness :
    ((lookup_step (fun _ _ => (PyObj.onone, 200)) (fun x _ => (some x, none))
        ⟨"file", 25, ",", "get", "resource"⟩ "md5_hash" 5
        (lookup_step (fun _ _ => (PyObj.onone, 200)) (fun x _ => (some x, none))
          ⟨"file", 25, ",", "get", "resource"⟩ "md5_hash" 5
          ⟨[], [], [], []⟩ 1 ⟨"aabb", 0⟩) 2 ⟨"aabb", 9⟩).results = [])
    ∧ ((lookup_step (fun _ _ => (PyObj.onone, 200)) (fun x _ => (some x, none))
        ⟨"file", 25, ",", "get", "resource"⟩ "md5_hash" 5
        (lookup_step (fun _ _ => (PyObj.onone, 200)) (fun x _ => (some x, none))
          ⟨"file", 25, ",", "get", "resource"⟩ "md5_hash" 5
          ⟨[], [], [], []⟩ 1 ⟨"aabb", 0⟩) 2 ⟨"aabb", 9⟩).obs_batch
      = ["aabb", "aabb"])
    ∧ (slookup (lookup_step (fun _ _ => (PyObj.onone, 200))
        (fun x _ => (some x, none))
        ⟨"file", 25, ",", "get", "resource"⟩ "md5_hash" 5
        (lookup_step (fun _ _ => (PyObj.onone, 200)) (fun x _ => (some x, none))
          ⟨"file", 25, ",", "get", "resource"⟩ "md5_hash" 5
          ⟨[], [], [], []⟩ 1 ⟨"aabb", 0⟩) 2 ⟨"aabb", 9⟩).source_row_index "aabb"
      = some 9)
    ∧ ((lookup_step (fun _ _ => (PyObj.onone, 200)) (fun x _ => (some x, none))
        ⟨"file", 25, ",", "get", "resource"⟩ "md5_hash" 5
        (lookup_step (fun _ _ => (PyObj.onone, 200)) (fun x _ => (some x, none))
          ⟨"file", 25, ",", "get", "resource"⟩ "md5_hash" 5
          ⟨[], [], [], []⟩ 1 ⟨"aabb", 0⟩) 2 ⟨"aabb", 9⟩).flushes = []) :=
  c10_same_batch_no_dedup (fun _ _ => (PyObj.onone, 200))
    (fun x _ => (some x, none)) ⟨"file", 25, ",", "get", "resource"⟩
    "md5_hash" 5 ⟨[], [], [], []⟩ 1 "aabb" "aabb" 0 9 rfl (by simp)
    (by decide) (by decide) (by decide) (by decide)

lemma flush_cond_iff (l : List String) (size n rc : Nat) :
    (((l.length == size || n == rc) && !l.isEmpty) = true)
      ↔ ((l.length = size ∨ n = rc) ∧ l ≠ []) := by
  simp [List.isEmpty_iff]

lemma lookup_step_flush_pos (gw : Gateway) (san : Sanitize) (p : VTParams)
    (t : String) (rc : Nat) (s : LState) (n : Nat) (row : InRow)
    (hc : ((step_obs_batch san s t row).length = p.batch_size ∨ n = rc)
        ∧ step_obs_batch san s t row ≠ []) :
    (lookup_step gw san p t rc s n row).flushes
      = s.flushes
        ++ [⟨String.intercalate p.batch_delimiter (step_obs_batch san s t row),
             step_obs_batch san s t row,
             (gw (String.intercalate p.batch_delimiter
               (step_obs_batch san s t row)) p).2⟩]
    ∧ (lookup_step gw san p t rc s n row).obs_batch = [] := by
  have hb := (flush_cond_iff (step_obs_batch san s t row) p.batch_size n rc).mpr hc
  simp only [lookup_step, hb, if_true]
  exact ⟨trivial, trivial⟩

lemma lookup_step_flush_neg (gw : Gateway) (san : Sanitize) (p : VTParams)
    (t : String) (rc : Nat) (s : LState) (n : Nat) (row : InRow)
    (hc : ¬(((step_obs_batch san s t row).length = p.batch_size ∨ n = rc)
        ∧ step_obs_batch san s t row ≠ [])) :
    (lookup_step gw san p t rc s n row).flushes = s.flushes
    ∧ (lookup_step gw san p t rc s n row).obs_batch
      = step_obs_batch san s t row := by
  have hb : (((step_obs_batch san s t row).length == p.batch_size || n == rc)
      && !(step_obs_batch san s t row).isEmpty) = false := by
    cases hbool : (((step_obs_batch san s t row).length == p.batch_size
        || n == rc) && !(step_obs_batch san s t row).isEmpty) with
    | false => rfl
    | true => exact absurd ((flush_cond_iff _ _ _ _).mp hbool) hc
  simp only [lookup_step, hb, Bool.false_eq_true, if_false]
  exact ⟨trivial, trivial⟩

lemma step_obs_batch_le (san : Sanitize) (s : LState) (t : String)
    (row : InRow) (p : VTParams) (hinv : s.obs_batch.length < p.batch_size) :
    (step_obs_batch san s t row).length ≤ p.batch_size := by
  cases hv : (validate_observable san s.results row.observable t row.index).2 with
  | some pp => simp only [step_obs_batch, hv, List.length_append]; simp; omega
  | none => simp only [step_obs_batch, hv]; omega

lemma lookup_step_batch_bound (gw : Gateway) (san : Sanitize) (p : VTParams)
    (t : String) (rc : Nat) (s : LState) (n : Nat) (row : InRow)
    (hp : 0 < p.batch_size) (hinv : s.obs_batch.length < p.batch_size) :
    ((lookup_step gw san p t rc s n row).obs_batch.length < p.batch_size)
    ∧ ((lookup_step gw san p t rc s n row).flushes = s.flushes
        ∨ ∃ ev, (lookup_step gw san p t rc s n row).flushes = s.flushes ++ [ev]
            ∧ 0 < ev.batch.length ∧ ev.batch.length ≤ p.batch_size) := by
  have hlen := step_obs_batch_le san s t row p hinv
  by_cases hc : ((step_obs_batch san s t row).length = p.batch_size ∨ n = rc)
      ∧ step_obs_batch san s t row ≠ []
  · obtain ⟨hf, ho⟩ := lookup_step_flush_pos gw san p t rc s n row hc
    refine ⟨by rw [ho]; simpa using hp, Or.inr ⟨_, hf, ?_, hlen⟩⟩
    exact List.length_pos.mpr hc.2
  · obtain ⟨hf, ho⟩ := lookup_step_flush_neg gw san p t rc s n row hc
    refine ⟨?_, Or.inl hf⟩
    rw [ho]
    by_cases hemp : step_obs_batch san s t row = []
    · rw [hemp]; simpa using hp
    · have : ¬((step_obs_batch san s t row).length = p.batch_size ∨ n = rc) :=
        fun hh => hc ⟨hh, hemp⟩
      have hne : (step_obs_batch san s t row).length ≠ p.batch_size :=
        fun hh => this (Or.inl hh)
      omega

lemma lookup_rows_batch_bound (gw : Gateway) (san : Sanitize) (p : VTParams)
    (t : String) (rc : Nat) (rows : List InRow) :
    ∀ (s : LState) (n : Nat), 0 < p.batch_size →
      s.obs_batch.length < p.batch_size →
      (∀ ev ∈ s.flushes, 0 < ev.batch.length
        ∧ ev.batch.length ≤ p.batch_size) →
      ((lookup_rows gw san p t rc s n rows).obs_batch.length < p.batch_size
       ∧ ∀ ev ∈ (lookup_rows gw san p t rc s n rows).flushes,
           0 < ev.batch.length ∧ ev.batch.length ≤ p.batch_size) := by
  induction rows with
  | nil => intro s n hp hb hf; exact ⟨hb, hf⟩
  | cons r rest ih =>
      intro s n hp hb hf
      obtain ⟨h1, h2⟩ := lookup_step_batch_bound gw san p t rc s n r hp hb
      refine ih _ _ hp h1 ?_
      rcases h2 with h | ⟨ev, hev, hev1, hev2⟩
      · rw [h]; exact hf
      · rw [hev]
        intro e he
        rcases List.mem_append.mp he with h | h
        · exact hf e h
        · simp only [List.mem_singleton] at h
          subst h
          exact ⟨hev1, hev2⟩

lemma slookup_mem {α : Type} (m : List (String × α)) (k : String) (v : α)
    (h : slookup m k = some v) : (k, v) ∈ m := by
  unfold slookup at h
  cases hf : m.find? (fun p => p.1 == k) with
  | none => rw [hf] at h; simp at h
  | some pr =>
      rw [hf] at h
      have hm := List.mem_of_find?_eq_some hf
      have hp := List.find?_some hf
      obtain ⟨a, b⟩ := pr
      simp only [beq_iff_eq] at hp
      simp at h
      subst hp
      subst h
      exact hm

/-- C3: a batch is flushed (joined with the type's delimiter and handed to
the gateway) exactly when, after the current row is processed, the batch is
non-empty and either has reached the type's batch size or the current row is
the last row; consequently every flushed batch of a registry type is
non-empty and never exceeds that type's batch size, and a type with batch
size 1 flushes on every valid row. -/
theorem c3_batch_flush_boundary :
    (∀ (gw : Gateway) (san : Sanitize) (p : VTParams) (t : String) (rc : Nat)
        (s : LState) (n : Nat) (row : InRow),
      ((((step_obs_batch san s t row).length = p.batch_size ∨ n = rc)
          ∧ step_obs_batch san s t row ≠ []) →
        (lookup_step gw san p t rc s n row).flushes
          = s.flushes
            ++ [⟨String.intercalate p.batch_delimiter (step_obs_batch san s t row),
                 step_obs_batch san s t row,
                 (gw (String.intercalate p.batch_delimiter
                   (step_obs_batch san s t row)) p).2⟩]
        ∧ (lookup_step gw san p t rc s n row).obs_batch = [])
      ∧ (¬(((step_obs_batch san s t row).length = p.batch_size ∨ n = rc)
          ∧ step_obs_batch san s t row ≠ []) →
        (lookup_step gw san p t rc s n row).flushes = s.flushes
        ∧ (lookup_step gw san p t rc s n row).obs_batch
          = step_obs_batch san s t row))
    ∧ (∀ (gw : Gateway) (san : Sanitize) (results : List ResultRow)
        (t : String) (rows : List InRow) (st : LState),
      lookup_ioc_type gw san results t rows = some st →
      ∀ ev ∈ st.flushes, 0 < ev.batch.length
        ∧ ∃ vtt p, slookup VT_TYPE_MAP t = some vtt
            ∧ slookup VT_API_TYPES vtt = some p
            ∧ ev.batch.length ≤ p.batch_size)
    ∧ (∀ (gw : Gateway) (san : Sanitize) (p : VTParams) (t : String)
        (rc : Nat) (s : LState) (n : Nat) (row : InRow) (pp : String),
      p.batch_size = 1 → s.obs_batch = [] →
      (validate_observable san s.results row.observable t row.index).2
        = some pp →
      (lookup_step gw san p t rc s n row).flushes
        = s.flushes ++ [⟨String.intercalate p.batch_delimiter [pp], [pp],
            (gw (String.intercalate p.batch_delimiter [pp]) p).2⟩]) := by
  refine ⟨?_, ?_, ?_⟩
  · intro gw san p t rc s n row
    exact ⟨lookup_step_flush_pos gw san p t rc s n row,
      lookup_step_flush_neg gw san p t rc s n row⟩
  · intro gw san results t rows st h ev hev
    unfold lookup_ioc_type at h
    cases h2 : slookup VT_TYPE_MAP t with
    | none =>
        rw [h2] at h
        exact absurd h (by simp)
    | some vtt =>
        rw [h2] at h
        simp only [] at h
        cases h3 : slookup VT_API_TYPES vtt with
        | none =>
            rw [h3] at h
            exact absurd h (by simp)
        | some p =>
            rw [h3] at h
            simp only [Option.some_inj] at h
            subst h
            have hp : 0 < p.batch_size := by
              have hall : ∀ pr ∈ VT_API_TYPES, 0 < pr.2.batch_size := by decide
              exact hall (vtt, p) (slookup_mem _ _ _ h3)
            have hb := lookup_rows_batch_bound gw san p t rows.length rows
              ⟨results, [], [], []⟩ 1 hp (by simpa using hp)
              (by intro e he; simp at he)
            exact ⟨(hb.2 ev hev).1, vtt, p, rfl, h3, (hb.2 ev hev).2⟩
  · intro gw san p t rc s n row pp hsize hempty hval
    have hsb : step_obs_batch san s t row = [pp] := by
      simp [step_obs_batch, hval, hempty]
    have hc : ((step_obs_batch san s t row).length = p.batch_size ∨ n = rc)
        ∧ step_obs_batch san s t row ≠ [] := by
      rw [hsb]
      exact ⟨Or.inl (by simp [hsize]), by simp⟩
    have hpos := (lookup_step_flush_pos gw san p t rc s n row hc).1
    rw [hsb] at hpos
    exact hpos

/-- Witness for C3: a valid url observable (batch size 1) flushes
immediately as a one-element batch. -/
theorem c3_batch_flush_witness :
    (lookup_step (fun _ _ => (PyObj.onone, 200)) (fun x _ => (some x, none))
        ⟨"url", 1, "\n", "get", "resource"⟩ "url" 5 ⟨[], [], [], []⟩ 1
        ⟨"http://x.co", 3⟩).flushes
      = [] ++ [⟨String.intercalate "\n" ["http://x.co"], ["http://x.co"],
          ((fun (_ : String) (_ : VTParams) => (PyObj.onone, (200 : Int)))
            (String.intercalate "\n" ["http://x.co"])
            ⟨"url", 1, "\n", "get", "resource"⟩).2⟩] :=
  c3_batch_flush_boundary.2.2 (fun _ _ => (PyObj.onone, 200))
    (fun x _ => (some x, none)) ⟨"url", 1, "\n", "get", "resource"⟩ "url" 5
    ⟨[], [], [], []⟩ 1 ⟨"http://x.co", 3⟩ "http://x.co" rfl rfl (by decide)
